import Mathlib

/-!
Shallow embedding of the Egon repository core (egon/ and simple_pipe/):
connector wiring, the node lifecycle, and the completion-detection protocol.

Connector objects are identified by natural-number ids, and the underlying
`multiprocessing.Queue` objects by separate queue ids, so that the
object-identity facts of the Python code (two connectors referencing the
same queue instance) are expressible.  Queue contents are FIFO lists;
queue capacity never matters to the verified properties, so queues are
modelled unbounded.
-/

namespace Egon

/-- Python exception kinds raised by the embedded code. -/
inductive PyErr where
  | valueError
  | overwriteConnectionError
  | missingConnectionError
  | orphanedNodeError
  | attributeError
  | runtimeError
  | emptyError
  | timeoutError
  | recursionError
  deriving DecidableEq, Repr

/-- The Python class of a connector object: `Connector` (the generic base),
`Input`, or `Output`.  The guard `type(connector) is type(self)` in both
implementations of `connect` compares exactly this. -/
inductive CType where
  | base
  | input
  | output
  deriving DecidableEq, Repr

/-- Connector ids. -/
abbrev CId := Nat

/-- Queue object ids; a fresh id is allocated whenever the Python code
evaluates `mp.Queue(...)`. -/
abbrev QId := Nat

/-- Values passed through queues. -/
abbrev Val := Nat

/-- The heap of connector objects and queue objects.

* `ctype c` is the Python class of connector `c`;
* `partner c` embeds `_connected_partner` (egon) / `_partner` (simple_pipe);
* `queueOf c` is the id of the `mp.Queue` object referenced by the
  connector field `_queue`;
* `queues q` is the FIFO content of queue object `q`;
* `nextQ` is the allocator: ids below it are the already-created queues. -/
structure ConnState where
  ctype : CId → CType
  partner : CId → Option CId
  queueOf : CId → Nat
  queues : QId → List Val
  nextQ : Nat

/-- Embeds `Connector.is_connected` (both implementations):
`not (self._connected_partner is None)`. -/
def is_connected (s : ConnState) (c : CId) : Bool :=
  (s.partner c).isSome

/-- egon `Connector.connect` (src/egon/connectors.py lines 84-102):

* raises `ValueError` when `type(connector) is type(self)`;
* raises `OverwriteConnectionError` when `connector.is_connected() or
  self.is_connected()`;
* otherwise sets both partner references and assigns to both sides a
  freshly created `mp.Queue(maxsize)` (`connector._queue = self._queue =
  mp.Queue(maxsize)`).  Both raises happen before any mutation, so on an
  error the state is unchanged. -/
def connect (s : ConnState) (self other : CId) : Except PyErr ConnState :=
  if s.ctype other = s.ctype self then
    .error .valueError
  else if is_connected s other || is_connected s self then
    .error .overwriteConnectionError
  else
    .ok { s with
      partner := fun x => if x = self then some other
                          else if x = other then some self
                          else s.partner x
      queueOf := fun x => if x = self || x = other then s.nextQ else s.queueOf x
      queues := fun q => if q = s.nextQ then [] else s.queues q
      nextQ := s.nextQ + 1 }

/-- simple_pipe `Connector.connect` (src/simple_pipe/connectors.py lines
57-72):

* raises `ValueError` when `type(connector) is type(self)`;
* raises `ValueError` when `connector.is_connected()` — the check covers
  only the argument side, not `self`;
* otherwise sets both partner references and shares the existing queue of
  `self` with the argument (`connector._queue = self._queue`); no new
  queue is created. -/
def sp_connect (s : ConnState) (self other : CId) : Except PyErr ConnState :=
  if s.ctype other = s.ctype self then
    .error .valueError
  else if is_connected s other then
    .error .valueError
  else
    .ok { s with
      partner := fun x => if x = self then some other
                          else if x = other then some self
                          else s.partner x
      queueOf := fun x => if x = other then s.queueOf self else s.queueOf x }

/-- Body of `Connector.disconnect` (identical in shape in
src/egon/connectors.py lines 104-112 and src/simple_pipe/connectors.py
lines 74-82):

```
old_partner = self._connected_partner
self._connected_partner = None
self._queue = mp.Queue()
if old_partner:
    old_partner.disconnect()
```

The recursion is embedded with explicit fuel standing for the Python
recursion limit; on mutually-partnered states the depth is at most 3
(self, partner, self again — the second visit of `self` finds no partner
and stops). -/
def disconnect_step (s : ConnState) (c : CId) : ConnState :=
  { s with
    partner := fun x => if x = c then none else s.partner x
    queueOf := fun x => if x = c then s.nextQ else s.queueOf x
    queues := fun q => if q = s.nextQ then [] else s.queues q
    nextQ := s.nextQ + 1 }

/-- The recursive body of `disconnect`: read `old_partner`, apply the
local mutations of `disconnect_step`, then recurse into the old
partner. -/
def disconnectF : Nat → ConnState → CId → Except PyErr ConnState
  | 0, _, _ => .error .recursionError
  | fuel + 1, s, c =>
    match s.partner c with
    | none => .ok (disconnect_step s c)
    | some p => disconnectF fuel (disconnect_step s c) p

/-- Embeds `Connector.disconnect` with the CPython default recursion limit as
fuel. -/
def disconnect (s : ConnState) (c : CId) : Except PyErr ConnState :=
  disconnectF 1000 s c

/-- Embeds `Output.put`: `self._queue.put(x)` appends to the shared queue. -/
def put (s : ConnState) (c : CId) (x : Val) : ConnState :=
  { s with queues := fun q => if q = s.queueOf c then s.queues q ++ [x] else s.queues q }

/-- Embeds `DataStore.size`: `self._queue.qsize()`. -/
def size (s : ConnState) (c : CId) : Nat :=
  (s.queues (s.queueOf c)).length

/-- Embeds `DataStore.empty`: `self._queue.empty()`. -/
def queue_is_empty (s : ConnState) (c : CId) : Bool :=
  (s.queues (s.queueOf c)).isEmpty

/-- simple_pipe `Input.get` (src/simple_pipe/connectors.py lines 88-91):
`return self._queue.get(block, timeout)`.  A blocking call whose timeout
elapses with the queue still empty raises `queue.Empty`; otherwise the
head of the FIFO is dequeued and returned. -/
def sp_get (s : ConnState) (c : CId) : Except PyErr (Val × ConnState) :=
  match s.queues (s.queueOf c) with
  | [] => .error .emptyError
  | x :: xs =>
    .ok (x, { s with queues := fun q => if q = s.queueOf c then xs else s.queues q })

/-- The connector well-formedness invariant stated by the spec: the
partner relation is irreflexive and symmetric, partnered connectors
reference the identical queue object, and every referenced queue id has
been allocated. -/
def Inv (s : ConnState) : Prop :=
  (∀ a b, s.partner a = some b →
      a ≠ b ∧ s.partner b = some a ∧ s.queueOf a = s.queueOf b) ∧
  (∀ a, s.queueOf a < s.nextQ)

/-!
Section: egon node state (src/egon/nodes.py)

`AbstractNode.__init__` (lines 37-53) rejects a negative `num_processes`
and initialises the three state flags to `False`:

```
self._is_running = False
self._current_process_finished = False
self._node_finished = False
```
-/

/-- The instance attributes of an egon `AbstractNode`. -/
structure ENode where
  num_processes : Nat
  is_running : Bool
  current_process_finished : Bool
  node_finished : Bool
  deriving DecidableEq, Repr

/-- Embeds `AbstractNode.__init__`: raises `ValueError` for a negative process
count (zero is accepted) and starts with all three flags `False`. -/
def ENode.init (num_processes : Int) : Except PyErr ENode :=
  if num_processes < 0 then .error .valueError
  else .ok ⟨num_processes.toNat, false, false, false⟩

/-- Embeds `AbstractNode._run_pool` (lines 156-169): raises `RuntimeError` when
already running or already finished; otherwise evaluates
`mp.Pool(self.num_processes)` — which in CPython raises
`ValueError("Number of processes must be at least 1")` when the count is
less than one — runs `execute` in the pool, and only then sets
`_node_finished = True`. -/
def run_pool (n : ENode) : Except PyErr ENode :=
  if n.is_running then .error .runtimeError
  else if n.node_finished then .error .runtimeError
  else if n.num_processes < 1 then .error .valueError
  else .ok { n with is_running := false, node_finished := true }

/-- An input connector as seen by `AbstractNode.expecting_data`: the
content of its shared queue, and the parent nodes of its partner output
connectors. -/
structure EInput where
  queue : List Val
  partners : List ENode

/-- Modelled from the spec: `get_partners`, the method called by
`AbstractNode.expecting_data` (and by `_get_nodes_from_connectors`), is
absent from src/egon/connectors.py, which only carries the single
`partner` property.  Per the spec a connector has at most one partner at
a time, and the upstream nodes of an input are the parent nodes of its
partner output connectors; each `EInput` therefore carries the list of
those parent nodes directly. -/
def get_partners (i : EInput) : List ENode :=
  i.partners

/-- Embeds `AbstractNode.expecting_data` (src/egon/nodes.py lines 171-186),
keeping the early-return loop structure of the source: for each input
connector, first return `True` if any partner output connector has an
unfinished parent node, then return `True` if the input queue is
non-empty; return `False` once every input passes both checks. -/
def expecting_data : List EInput → Bool
  | [] => false
  | ic :: rest =>
    if (get_partners ic).any (fun oc => !oc.node_finished) then true
    else if !ic.queue.isEmpty then true
    else expecting_data rest

/-!
Section: Three-phase lifecycle (egon `AbstractNode.execute`, lines 145-154, and
simple_pipe `Node.execute`, src/simple_pipe/nodes.py lines 95-105)

Both bodies are identical:

```
self.setup()
self.action()
self.teardown()
self._current_process_finished = True   # `self.finished = True` in simple_pipe
```

The user-supplied phases act on an abstract state `σ`; `action` may raise.
The repository test suite observes the call order by appending a label
per invoked phase (tests/test_node.py, `call_list`), and the `ran` field
records exactly that. -/

/-- Lifecycle phase labels. -/
inductive Phase where
  | setupPhase
  | actionPhase
  | teardownPhase
  deriving DecidableEq, Repr

/-- The three user-supplied lifecycle methods of a node subclass. -/
structure NodeProg (σ : Type) where
  setup : σ → σ
  action : σ → Except PyErr σ
  teardown : σ → σ

/-- Observable per-process node state during `execute`: the user state,
the phases invoked so far, and the per-process finished flag
(`_current_process_finished` in egon, `finished` in simple_pipe). -/
structure NState (σ : Type) where
  user : σ
  ran : List Phase
  finished : Bool

/-- Embeds `execute`: setup, action, teardown in fixed order; the finished flag
is assigned immediately after `teardown` returns.  An exception from
`action` propagates to the caller, in which case `teardown` is not
invoked and the flag is not assigned. -/
def execute (p : NodeProg σ) (s : NState σ) : NState σ × Option PyErr :=
  let s1 : NState σ := { s with user := p.setup s.user, ran := s.ran ++ [Phase.setupPhase] }
  match p.action s1.user with
  | .error e => ({ s1 with ran := s1.ran ++ [Phase.actionPhase] }, some e)
  | .ok u2 =>
    let s2 : NState σ := { s1 with user := u2, ran := s1.ran ++ [Phase.actionPhase] }
    let s3 : NState σ :=
      { s2 with user := p.teardown s2.user, ran := s2.ran ++ [Phase.teardownPhase] }
    ({ s3 with finished := true }, none)

/-!
Section: Cross-process visibility of the finished flag

`Pipeline.run_async` (src/simple_pipe/pipeline.py) starts
`mp.Process(target=node.execute)`, and egon `_run_pool` runs `execute`
through `mp.Pool.apply`; either way `execute` runs in a forked worker
process that received a copy of the node object.  The assignment
`self.finished = True` / `self._current_process_finished = True` is a
write to a plain instance attribute — no `multiprocessing` shared
primitive (`Value`, `Manager`, shared memory) appears anywhere in src —
so under fork semantics it mutates only the copy held by the worker
process. -/

/-- The per-process copies of one node after a fork: the parent (and any
other process forked from it) versus the worker that runs `execute`. -/
structure ForkWorld (σ : Type) where
  parentView : NState σ
  workerView : NState σ

/-- Fork a worker from the parent copy of the node and run `execute` in
it; the plain-attribute write lands in the worker copy only. -/
def spawn_worker (p : NodeProg σ) (parent : NState σ) : ForkWorld σ :=
  { parentView := parent, workerView := (execute p parent).1 }

/-- What a downstream node running in a different worker process reads
when it evaluates the finished flag of this node: its own forked copy of
the plain attribute, i.e. the parent-side value. -/
def downstream_reads_finished (w : ForkWorld σ) : Bool :=
  w.parentView.finished

/-!
Section: simple_pipe node world (src/simple_pipe/nodes.py)

`Node.__init__` (lines 16-25) assigns `connection._node = self` for every
connector the node declares, and `connect` never reassigns `_node`; so
the `_node` field of a connector is forever its owning node. -/

/-- Node ids for the simple_pipe world. -/
abbrev NId := Nat

/-- The state consulted by `Target.expecting_inputs`: per node the
`finished` attribute; per connector the owning node (`_node`), the
partner reference (`_partner`), and whether the shared queue is empty. -/
structure SPWorld where
  finishedOf : NId → Bool
  ownerOf : CId → NId
  partnerOf : CId → Option CId
  emptyOf : CId → Bool

/-- Embeds `Node.input_nodes` (lines 71-74):
`[c._node for c in self.input_connections()]` — it maps each input
connector to its *owner*, which `Node.__init__` set to the node itself,
not to the node on the other side of the connection. -/
def sp_input_nodes (w : SPWorld) (inputs : List CId) : List NId :=
  inputs.map w.ownerOf

/-- Embeds `Target.expecting_inputs` (lines 141-147):

```
return not (
    all(n.finished for n in self.input_nodes()) and
    all(c.empty() for c in self.input_connections())
)
``` -/
def sp_expecting_inputs (w : SPWorld) (inputs : List CId) : Bool :=
  !((sp_input_nodes w inputs).all (fun n => w.finishedOf n) &&
    inputs.all (fun c => w.emptyOf c))

/-- Follows the words of the spec (section 4.3, step 1): every node
upstream of one of the given input connectors — the owner of the partner
output connector — has finished.  Written for comparison with
`sp_expecting_inputs`; it is not code of the repository. -/
def spec_upstream_all_finished (w : SPWorld) (inputs : List CId) : Bool :=
  inputs.all (fun c =>
    match w.partnerOf c with
    | some p => w.finishedOf (w.ownerOf p)
    | none => true)

/-!
Section: Validation (src/egon/nodes.py lines 101-111, src/egon/pipeline.py
lines 14-19)

`Pipeline.validate` runs `node.validate_connections()` for every
discovered node.  `AbstractNode` defines `_validate_connections` (with a
leading underscore) and no class in src defines `validate_connections`,
so the attribute lookup raises `AttributeError`.

Inside `_validate_connections` the guard is

```
if not conn.is_connected:
```

`is_connected` is a method and is not called here: the attribute lookup
yields a bound-method object, whose Python truthiness is `True`, so the
guard is `False` for every connector and the loop can never raise
`MissingConnectionError`. -/

/-- Whether any class in src defines the attribute `validate_connections`
that `Pipeline.validate` looks up (the method defined by `AbstractNode`
is `_validate_connections`). -/
def abstractNode_has_validate_connections : Bool :=
  false

/-- Python truthiness of the attribute `conn.is_connected` as it appears
(uncalled) in `_validate_connections`: a bound-method object, always
truthy. -/
def bound_method_truthy : Bool :=
  true

/-- A connector as seen by validation: whether it actually has an
established connection. -/
structure VConn where
  connected : Bool
  deriving DecidableEq, Repr

/-- Embeds `AbstractNode._validate_connections`: iterate the connectors and
raise `MissingConnectionError` when `not conn.is_connected` — which
tests the truthiness of the uncalled method object, never the field
`connected`. -/
def validate_connections : List VConn → Except PyErr Unit
  | [] => .ok ()
  | _conn :: rest =>
    if !bound_method_truthy then .error .missingConnectionError
    else validate_connections rest

/-- Follows the words of the spec (section 4.4): validation fails with
`MissingConnectionError` on the first declared connector left
unconnected.  Written for comparison with `validate_connections`; it is
not code of the repository. -/
def spec_validate_connections : List VConn → Except PyErr Unit
  | [] => .ok ()
  | conn :: rest =>
    if !conn.connected then .error .missingConnectionError
    else spec_validate_connections rest

/-- Embeds `Pipeline.validate`: `for node in self.get_nodes():
node.validate_connections()` — the attribute lookup fails on the first
node, whatever its connectors. -/
def pipeline_validate : List (List VConn) → Except PyErr Unit
  | [] => .ok ()
  | node :: rest =>
    if !abstractNode_has_validate_connections then .error .attributeError
    else
      match validate_connections node with
      | .error e => .error e
      | .ok () => pipeline_validate rest

/-- Embeds `Pipeline.validate` with the name drift repaired (calling
`_validate_connections` as the docstrings intend): node-level
`validate` — the only place `OrphanedNodeError` is raised — is still
never called. -/
def pipeline_validate_fixed : List (List VConn) → Except PyErr Unit
  | [] => .ok ()
  | node :: rest =>
    match validate_connections node with
    | .error e => .error e
    | .ok () => pipeline_validate_fixed rest

/-!
Section: egon `Input.get` (src/egon/connectors.py lines 133-160)

```
if not refresh_interval > 0:
    raise ValueError(...)
timeout = timeout or float('inf')
while timeout > 0:
    if self.parent_node.node_finished:
        return KillSignal
    try:
        return self.get(timeout=min(timeout, refresh_interval))
    except:
        timeout -= refresh_interval
raise TimeoutError
```

The call inside `try` is `self.get(...)` — the method calls itself, not
`self._queue.get(...)`; the underlying queue is never consulted.  The
recursion tower bottoms out at the interpreter recursion limit
(`RecursionError`), the bare `except:` absorbs whatever the nested call
raised, and the loop then decrements `timeout` until `TimeoutError`.

The embedding carries fuel for the recursion limit (a loop continuation
is modelled as a tail call, which also spends one unit of fuel), a fixed
value of `parent_node.node_finished`, the queue content (never read by
the source, hence an unused argument here), the remaining `timeout` and
the `refresh_interval`.  The model covers calls with a finite positive
`timeout` argument, the case the claims are about. -/

/-- Result of an egon `Input.get` call. -/
inductive GetRes where
  | value (v : Val)
  | killSignal
  | err (e : PyErr)
  deriving DecidableEq, Repr

/-- egon `Input.get`. -/
def egonGet : Nat → Bool → List Val → Int → Int → GetRes
  | 0, _, _, _, _ => .err .recursionError
  | fuel + 1, fin, q, timeout, refresh =>
    if !(refresh > 0) then .err .valueError
    else if !(timeout > 0) then .err .timeoutError
    else if fin then .killSignal
    else
      match egonGet fuel fin q (min timeout refresh) refresh with
      | .value v => .value v
      | .killSignal => .killSignal
      | .err _ => egonGet fuel fin q (timeout - refresh) refresh

/-!
Section: Concrete states used by the theorems below
-/

/-- Connector heap with an established Input(0)–Output(1) pair sharing
queue 0, and a fresh unconnected Output(2) owning queue 1. -/
def exA : ConnState where
  ctype := fun c => if c = 0 then .input else .output
  partner := fun c => if c = 0 then some 1 else if c = 1 then some 0 else none
  queueOf := fun c => if c = 0 || c = 1 then 0 else 1
  queues := fun _ => []
  nextQ := 2

/-- The heap after `exA` evaluates `sp_connect` on the already-connected
Input 0 and the fresh Output 2 (simple_pipe raises nothing there). -/
def exA2 : ConnState :=
  (sp_connect exA 0 2).toOption.getD exA

/-- Connector heap with an unconnected Input(0) holding the value 7 in
its private queue 0, and an unconnected Output(1) owning queue 1. -/
def exC : ConnState where
  ctype := fun c => if c = 0 then .input else .output
  partner := fun _ => none
  queueOf := fun c => if c = 0 then 0 else 1
  queues := fun q => if q = 0 then [7] else []
  nextQ := 2

/-- simple_pipe world: node 0 is a finished upstream source, node 1 an
unfinished target; connector 0 (owned by node 0) is partnered with
connector 1 (owned by node 1); every queue is empty. -/
def exW : SPWorld where
  finishedOf := fun n => n == 0
  ownerOf := fun c => if c = 0 then 0 else 1
  partnerOf := fun c => if c = 0 then some 1 else if c = 1 then some 0 else none
  emptyOf := fun _ => true

/-- A node program whose `action` succeeds. -/
def okProg : NodeProg Nat where
  setup := fun n => n + 1
  action := fun n => .ok (n * 2)
  teardown := fun n => n + 3

/-- A node program whose `action` raises. -/
def errProg : NodeProg Nat where
  setup := fun n => n + 1
  action := fun _ => .error .valueError
  teardown := fun n => n + 3

/-- The state `exA` satisfies the connector invariant. -/
lemma inv_exA : Inv exA := by
  constructor
  · intro a b hab
    by_cases h0 : a = 0
    · subst h0
      have hb : b = 1 := by
        have h := hab
        simp [exA] at h
        exact h.symm
      subst hb
      refine ⟨by decide, by decide, by decide⟩
    · by_cases h1 : a = 1
      · subst h1
        have hb : b = 0 := by
          have h := hab
          simp [exA] at h
          exact h.symm
        subst hb
        refine ⟨by decide, by decide, by decide⟩
      · simp [exA, h0, h1] at hab
  · intro a
    by_cases h0 : a = 0
    · subst h0; decide
    · by_cases h1 : a = 1
      · subst h1; decide
      · simp [exA, h0, h1]

/-!
Section: Supporting lemmas
-/

/-- The early-return loop of `expecting_data` computes the disjunction,
over the input connectors, of "some partner parent unfinished" and
"queue non-empty". -/
lemma expecting_data_eq_any (inputs : List EInput) :
    expecting_data inputs =
      inputs.any (fun i =>
        (get_partners i).any (fun n => !n.node_finished) || !i.queue.isEmpty) := by
  induction inputs with
  | nil => rfl
  | cons ic rest ih =>
    simp only [expecting_data, List.any_cons, ih]
    by_cases h1 : (get_partners ic).any (fun n => !n.node_finished) = true
    · simp [h1]
    · by_cases h2 : ic.queue.isEmpty = true
      · simp [h1, h2]
      · simp [h1, h2]

/-- The egon completion decision: `expecting_data` answers `false`
exactly when every partner parent node of every input has finished and
every input queue is empty.  In particular it answers `true` whenever
some upstream node is unfinished, whatever the queue contents, and
`false` only under the conjunction — the ordering property the spec
demands of egon `expecting_data`. -/
lemma expecting_data_false_iff (inputs : List EInput) :
    expecting_data inputs = false ↔
      ∀ i ∈ inputs,
        (∀ n ∈ get_partners i, n.node_finished = true) ∧ i.queue.isEmpty = true := by
  rw [expecting_data_eq_any]
  simp [List.any_eq_false]

/-- egon `Connector.connect` raises `OverwriteConnectionError`, mutating
nothing, whenever either side already has a partner (and the Python
types differ, so the `ValueError` guard does not fire first). -/
lemma connect_already_connected_error (s : ConnState) (a b : CId)
    (hd : s.ctype b ≠ s.ctype a)
    (h : is_connected s a = true ∨ is_connected s b = true) :
    connect s a b = .error .overwriteConnectionError := by
  unfold connect
  rw [if_neg hd]
  rcases h with h | h <;> simp [h]

/-- egon `Connector.connect` on two unconnected connectors of different
Python types succeeds and establishes mutual partner references with the
identical, freshly created queue object on both sides. -/
lemma connect_establishes_mutual_partners (s : ConnState) (a b : CId)
    (hd : s.ctype b ≠ s.ctype a)
    (ha : is_connected s a = false) (hb : is_connected s b = false) :
    ∃ s2, connect s a b = .ok s2 ∧
      s2.partner a = some b ∧ s2.partner b = some a ∧
      s2.queueOf a = s2.queueOf b ∧ s2.queueOf a = s.nextQ := by
  have hab : a ≠ b := by
    intro hEq
    exact hd (by rw [hEq])
  unfold connect
  rw [if_neg hd]
  rw [ha, hb]
  refine ⟨_, rfl, ?_, ?_, ?_, ?_⟩
  · simp
  · simp [hab.symm]
  · simp
  · simp

/-- One unfolding of the fuelled `disconnect` recursion. -/
lemma disconnectF_succ (fuel : Nat) (s : ConnState) (c : CId) :
    disconnectF (fuel + 1) s c =
      match s.partner c with
      | none => .ok (disconnect_step s c)
      | some p => disconnectF fuel (disconnect_step s c) p := rfl

/-- Classifier for `GetRes`: the call ended in a raised exception. -/
def GetRes.isErr : GetRes → Bool
  | .err _ => true
  | _ => false

/-- While the parent node is not finished, egon `Input.get` always ends
in a raised exception: it can neither return a value (it never reads the
underlying queue) nor return `KillSignal`. -/
lemma egonGet_isErr (fuel : Nat) :
    ∀ (q : List Val) (timeout refresh : Int),
      (egonGet fuel false q timeout refresh).isErr = true := by
  induction fuel with
  | zero => intro q timeout refresh; rfl
  | succ f ih =>
    intro q timeout refresh
    rw [egonGet]
    by_cases hr : (refresh > 0 : Bool) = true
    · by_cases ht : (timeout > 0 : Bool) = true
      · simp only [hr, ht, Bool.not_true, Bool.false_eq_true, if_false, if_neg]
        have hin := ih q (min timeout refresh) refresh
        cases hcase : egonGet f false q (min timeout refresh) refresh with
        | value v => rw [hcase] at hin; exact absurd hin (by simp [GetRes.isErr])
        | killSignal => rw [hcase] at hin; exact absurd hin (by simp [GetRes.isErr])
        | err e =>
          simp only [hcase]
          exact ih q (timeout - refresh) refresh
      · simp only [Bool.not_eq_true] at ht
        simp [hr, ht, GetRes.isErr]
    · simp only [Bool.not_eq_true] at hr
      simp [hr, GetRes.isErr]

lemma step_partner_self (s : ConnState) (c : CId) :
    (disconnect_step s c).partner c = none := by
  simp [disconnect_step]

lemma step_partner_other (s : ConnState) (c x : CId) (h : x ≠ c) :
    (disconnect_step s c).partner x = s.partner x := by
  simp [disconnect_step, h]

lemma step_queueOf_self (s : ConnState) (c : CId) :
    (disconnect_step s c).queueOf c = s.nextQ := by
  simp [disconnect_step]

lemma step_queueOf_other (s : ConnState) (c x : CId) (h : x ≠ c) :
    (disconnect_step s c).queueOf x = s.queueOf x := by
  simp [disconnect_step, h]

lemma step_nextQ (s : ConnState) (c : CId) :
    (disconnect_step s c).nextQ = s.nextQ + 1 := rfl

lemma step_queues_fresh (s : ConnState) (c : CId) :
    (disconnect_step s c).queues s.nextQ = [] := by
  simp [disconnect_step]

lemma step_queues_old (s : ConnState) (c : CId) (q : QId) (h : q ≠ s.nextQ) :
    (disconnect_step s c).queues q = s.queues q := by
  simp [disconnect_step, h]

/-!
Section: Claim theorems
-/

/-- C1: in simple_pipe, `Target.expecting_inputs` does not implement the
claimed decision: in `exW` every node actually upstream of the target
input (the partner owner, node 0) has finished and every input queue is
empty, so the claim requires the answer `false`; but `input_nodes`
returns the owner of the input connector — the target itself, node 1 —
and `expecting_inputs` answers `true`. -/
theorem expecting_inputs_consults_owner_not_upstream :
    spec_upstream_all_finished exW [1] = true ∧
    ([1] : List CId).all (fun c => exW.emptyOf c) = true ∧
    sp_input_nodes exW [1] = [1] ∧
    exW.finishedOf 1 = false ∧
    sp_expecting_inputs exW [1] = true :=
  ⟨rfl, rfl, rfl, rfl, rfl⟩

/-- C2: `execute` writes the per-replica finished flag as a plain
instance attribute inside the forked worker process, not through an
inter-process shared primitive: after the worker runs `execute` to
completion, the worker copy of the flag is `true` while a downstream
node reading the flag from another process still observes `false`. -/
theorem finished_flag_not_visible_across_fork :
    (spawn_worker okProg ⟨0, [], false⟩).workerView.finished = true ∧
    downstream_reads_finished (spawn_worker okProg ⟨0, [], false⟩) = false :=
  ⟨rfl, rfl⟩

/-- C3: egon `Pipeline.validate` cannot raise the claimed errors.  On a
pipeline whose single node has one connected and one unconnected
connector it raises `AttributeError` (the looked-up method
`validate_connections` does not exist); `_validate_connections` itself,
called directly on those connectors, raises nothing, because its guard
tests the truthiness of the uncalled `is_connected` method object —
whereas the spec-side check raises `MissingConnectionError` there; and
with the method-name drift repaired, a pipeline that also contains a
zero-connector orphan node still validates without `OrphanedNodeError`,
since node-level `validate` is never called. -/
theorem pipeline_validate_never_raises_specific_errors :
    pipeline_validate [[⟨true⟩, ⟨false⟩]] = .error .attributeError ∧
    validate_connections [⟨true⟩, ⟨false⟩] = .ok () ∧
    spec_validate_connections [⟨true⟩, ⟨false⟩] = .error .missingConnectionError ∧
    pipeline_validate_fixed [[⟨true⟩, ⟨false⟩], []] = .ok () :=
  ⟨rfl, rfl, rfl, rfl⟩

/-- C6: simple_pipe `Connector.connect` checks only the argument side for
an existing connection: with Input 0 already connected (to Output 1),
`sp_connect` of 0 with the fresh Output 2 raises nothing and rewires
connector 0, although the claim requires an already-connected error when
either side has a partner. -/
theorem sp_connect_missing_self_connected_check :
    is_connected exA 0 = true ∧
    sp_connect exA 0 2 = .ok exA2 ∧
    exA2.partner 0 = some 2 :=
  ⟨rfl, rfl, rfl⟩

/-- C7: the mutual-partner invariant is not preserved by every connector
operation in simple_pipe: after `sp_connect exA 0 2` (accepted because
only the argument side is checked), connector 1 still names 0 as its
partner while connector 0 now names 2, so "a has partner b implies b has
partner a" fails. -/
theorem sp_connect_breaks_partner_symmetry :
    exA2.partner 1 = some 0 ∧ exA2.partner 0 ≠ some 1 := by
  refine ⟨rfl, ?_⟩
  decide

/-- C9: egon does not treat a zero-replica upstream node as finished.
`AbstractNode.__init__` accepts `num_processes = 0` and initialises
`_node_finished` to `False`; `expecting_data` consults only that flag, so
a target whose single input is partnered with the fresh zero-replica
node still reports `true` on an empty queue, although the claim requires
`false`; and `_run_pool` — the only writer of the flag — raises
`ValueError` from `mp.Pool(0)`, so the flag can never become `true`. -/
theorem zero_replica_upstream_not_treated_finished :
    ENode.init 0 = .ok ⟨0, false, false, false⟩ ∧
    expecting_data [⟨[], [⟨0, false, false, false⟩]⟩] = true ∧
    run_pool ⟨0, false, false, false⟩ = .error .valueError :=
  ⟨rfl, rfl, rfl⟩

/-- C4: `execute` runs setup, action and teardown in that fixed order
and assigns the per-process finished flag immediately after teardown
returns; when `action` raises, teardown is not invoked, the flag stays
`false`, and the exception reaches the caller of `execute`. -/
theorem execute_lifecycle_order (σ : Type) (p : NodeProg σ) (u : σ) :
    (∀ u2, p.action (p.setup u) = .ok u2 →
        execute p ⟨u, [], false⟩ =
          (⟨p.teardown u2,
            [Phase.setupPhase, Phase.actionPhase, Phase.teardownPhase], true⟩, none)) ∧
    (∀ e, p.action (p.setup u) = .error e →
        execute p ⟨u, [], false⟩ =
          (⟨p.setup u, [Phase.setupPhase, Phase.actionPhase], false⟩, some e)) := by
  constructor
  · intro u2 h
    simp [execute, h]
  · intro e h
    simp [execute, h]

/-- C4 witness: the lifecycle theorem evaluated on a succeeding program
and on a program whose `action` raises. -/
theorem execute_lifecycle_order_witness :
    execute okProg ⟨0, [], false⟩ =
      (⟨5, [Phase.setupPhase, Phase.actionPhase, Phase.teardownPhase], true⟩, none) ∧
    execute errProg ⟨0, [], false⟩ =
      (⟨1, [Phase.setupPhase, Phase.actionPhase], false⟩, some .valueError) :=
  ⟨(execute_lifecycle_order Nat okProg 0).1 2 rfl,
   (execute_lifecycle_order Nat errProg 0).2 .valueError rfl⟩

/-- C5: egon `Input.get` never returns dequeued data while the parent
node is unfinished — the body recurses into itself instead of calling
`self._queue.get`, so every call ends in a raised exception whatever the
queue holds; concretely, with the value 42 sitting in the queue and a
finite timeout the call raises `TimeoutError` instead of returning 42. -/
theorem input_get_never_returns_data :
    (∀ (fuel : Nat) (q : List Val) (timeout refresh : Int) (v : Val),
        egonGet fuel false q timeout refresh ≠ .value v) ∧
    egonGet 50 false [42] 30 10 = .err .timeoutError := by
  constructor
  · intro fuel q timeout refresh v h
    have hErr := egonGet_isErr fuel q timeout refresh
    rw [h] at hErr
    exact absurd hErr (by simp [GetRes.isErr])
  · decide

/-- C8: `disconnect` raises no error on any well-formed state, including
an unconnected connector; after disconnecting either side of a connected
pair, both connectors are partner-free and hold distinct fresh empty
queues shared with no other connector; and a second `disconnect` on the
same connector again raises no error and leaves it unconnected. -/
theorem disconnect_total_and_fresh_queues (s : ConnState) (c : CId) (hInv : Inv s) :
    ∃ s2, disconnect s c = .ok s2 ∧
      s2.partner c = none ∧
      (∀ p, s.partner c = some p →
        s2.partner p = none ∧
        s2.queueOf p ≠ s2.queueOf c ∧
        s2.queues (s2.queueOf c) = [] ∧
        s2.queues (s2.queueOf p) = [] ∧
        ∀ x, x ≠ c → x ≠ p →
          s2.queueOf x ≠ s2.queueOf c ∧ s2.queueOf x ≠ s2.queueOf p) ∧
      ∃ s3, disconnect s2 c = .ok s3 ∧ s3.partner c = none := by
  cases hpc : s.partner c with
  | none =>
    refine ⟨disconnect_step s c, ?_, step_partner_self s c, ?_, ?_⟩
    · show disconnectF 1000 s c = _
      rw [show (1000 : Nat) = 999 + 1 from rfl, disconnectF_succ, hpc]
    · intro p hp
      exact Option.noConfusion hp
    · refine ⟨disconnect_step (disconnect_step s c) c, ?_, step_partner_self _ c⟩
      show disconnectF 1000 _ c = _
      rw [show (1000 : Nat) = 999 + 1 from rfl, disconnectF_succ,
          step_partner_self s c]
  | some p =>
    obtain ⟨hne, hpp, _⟩ := hInv.1 c p hpc
    have hnep : p ≠ c := Ne.symm hne
    have h1 : (disconnect_step s c).partner p = some c := by
      rw [step_partner_other s c p hnep]; exact hpp
    have h2 : (disconnect_step (disconnect_step s c) p).partner c = none := by
      rw [step_partner_other _ p c hne, step_partner_self s c]
    have e1 : disconnect s c = disconnectF 999 (disconnect_step s c) p := by
      show disconnectF 1000 s c = _
      rw [show (1000 : Nat) = 999 + 1 from rfl, disconnectF_succ, hpc]
    have e2 : disconnectF 999 (disconnect_step s c) p =
        disconnectF 998 (disconnect_step (disconnect_step s c) p) c := by
      rw [show (999 : Nat) = 998 + 1 from rfl, disconnectF_succ, h1]
    have e3 : disconnectF 998 (disconnect_step (disconnect_step s c) p) c =
        .ok (disconnect_step (disconnect_step (disconnect_step s c) p) c) := by
      rw [show (998 : Nat) = 997 + 1 from rfl, disconnectF_succ, h2]
    have hE : disconnect s c =
        .ok (disconnect_step (disconnect_step (disconnect_step s c) p) c) :=
      e1.trans (e2.trans e3)
    have hqc :
        (disconnect_step (disconnect_step (disconnect_step s c) p) c).queueOf c
          = s.nextQ + 2 := by
      rw [step_queueOf_self, step_nextQ, step_nextQ]
    have hqp :
        (disconnect_step (disconnect_step (disconnect_step s c) p) c).queueOf p
          = s.nextQ + 1 := by
      rw [step_queueOf_other _ c p hnep, step_queueOf_self, step_nextQ]
    refine ⟨_, hE, step_partner_self _ c, ?_, ?_⟩
    · intro p2 hp2
      have hp2e : p2 = p := (Option.some.inj hp2).symm
      subst hp2e
      refine ⟨?_, ?_, ?_, ?_, ?_⟩
      · rw [step_partner_other _ c p2 hnep, step_partner_self]
      · rw [hqc, hqp]; omega
      · rw [hqc]
        have : (disconnect_step (disconnect_step s c) p2).nextQ = s.nextQ + 2 := by
          rw [step_nextQ, step_nextQ]
        rw [← this, step_queues_fresh]
      · rw [hqp]
        have hside : s.nextQ + 1 ≠ (disconnect_step (disconnect_step s c) p2).nextQ := by
          rw [step_nextQ, step_nextQ]; omega
        rw [step_queues_old _ c _ hside]
        have hh : (disconnect_step s c).nextQ = s.nextQ + 1 := step_nextQ s c
        rw [← hh, step_queues_fresh]
      · intro x hxc hxp
        have hqx :
            (disconnect_step (disconnect_step (disconnect_step s c) p2) c).queueOf x
              = s.queueOf x := by
          rw [step_queueOf_other _ c x hxc, step_queueOf_other _ p2 x hxp,
              step_queueOf_other _ c x hxc]
        have hlt := hInv.2 x
        rw [hqx, hqc, hqp]
        omega
    · refine
        ⟨disconnect_step (disconnect_step (disconnect_step (disconnect_step s c) p) c) c,
          ?_, step_partner_self _ c⟩
      show disconnectF 1000 _ c = _
      rw [show (1000 : Nat) = 999 + 1 from rfl, disconnectF_succ,
          step_partner_self _ c]

/-- C8 witness: the disconnect theorem evaluated on the connected pair
0–1 of `exA`. -/
theorem disconnect_total_and_fresh_queues_witness :
    ∃ s2, disconnect exA 0 = .ok s2 ∧
      s2.partner 0 = none ∧
      (∀ p, exA.partner 0 = some p →
        s2.partner p = none ∧
        s2.queueOf p ≠ s2.queueOf 0 ∧
        s2.queues (s2.queueOf 0) = [] ∧
        s2.queues (s2.queueOf p) = [] ∧
        ∀ x, x ≠ 0 → x ≠ p →
          s2.queueOf x ≠ s2.queueOf 0 ∧ s2.queueOf x ≠ s2.queueOf p) ∧
      ∃ s3, disconnect s2 0 = .ok s3 ∧ s3.partner 0 = none :=
  disconnect_total_and_fresh_queues exA 0 inv_exA

/-- C10: egon `connect` on two unconnected, type-compatible connectors
succeeds and backs both with a newly created empty queue: both sizes are
zero immediately after the call, and no value previously enqueued
through either connector is retrievable through either connector
afterwards. -/
theorem connect_allocates_fresh_empty_queue (s : ConnState) (a b : CId)
    (hd : s.ctype b ≠ s.ctype a)
    (ha : is_connected s a = false) (hb : is_connected s b = false) :
    ∃ s2, connect s a b = .ok s2 ∧
      size s2 a = 0 ∧ size s2 b = 0 ∧
      ∀ v, (v ∈ s.queues (s.queueOf a) ∨ v ∈ s.queues (s.queueOf b)) →
        v ∉ s2.queues (s2.queueOf a) ∧ v ∉ s2.queues (s2.queueOf b) := by
  unfold connect
  rw [if_neg hd, ha, hb]
  simp only [Bool.or_self, Bool.false_eq_true, if_false]
  refine ⟨_, rfl, ?_, ?_, ?_⟩
  · simp [size]
  · simp [size]
  · intro v _
    constructor <;> simp

/-- C10 witness: the fresh-queue theorem evaluated on `exC`, whose Input
0 holds the previously enqueued value 7. -/
theorem connect_allocates_fresh_empty_queue_witness :
    7 ∈ exC.queues (exC.queueOf 0) ∧
    ∃ s2, connect exC 0 1 = .ok s2 ∧
      size s2 0 = 0 ∧ size s2 1 = 0 ∧
      ∀ v, (v ∈ exC.queues (exC.queueOf 0) ∨ v ∈ exC.queues (exC.queueOf 1)) →
        v ∉ s2.queues (s2.queueOf 0) ∧ v ∉ s2.queues (s2.queueOf 1) :=
  ⟨by decide,
   connect_allocates_fresh_empty_queue exC 0 1 (by decide) (by decide) (by decide)⟩

end Egon

